import Mathlib

/-!
Verification development for the triplesec repository (secular dynamics of
hierarchical triples).  The Python source consists of two modules:

* `triplesec.py`  — class `Triple`, the massive-triple model: scalar state
  `(a1, e1, g1, e2, g2, H)`, equations of motion from Blaes et al. (2002),
  an adaptive-step driver loop, and extremum / flip event printers.
* `ts_vector.py`  — class `Triple_vector`, the test-particle model: vector
  state `(jvec, evec)`, equations of motion from Katz et al. (2011).

The embeddings below translate the relevant source functions directly.
Real-valued formulas (trigonometry, square roots, real powers) are modelled
over `ℝ`; the driver loops and the event detectors, which only compare and
shuffle finitely many numbers, are modelled over `ℚ` so that concrete runs
can be evaluated by the kernel.  The physical constants `G`, `c`, `au`
(imported by the source from `ts_constants`, a module not in the repository
snapshot) are passed as explicit parameters; every statement below holds for
arbitrary values of these parameters, so nothing depends on their magnitude.
-/

namespace Triplesec

/-! ## Derived quantities of the massive model (`triplesec.py`)

Each `calc_*` definition is the method of class `Triple` of the same name;
each `deriv_*` definition is the corresponding expression recomputed inline
in `Triple._deriv` (source lines 203–231).  The parameter `Gc` is the
gravitational constant `G` of `ts_constants`.
-/

/-- `Triple.calc_cosphi` (triplesec.py lines 146–151): the angle between
periastron directions, Eq. 23 of Blaes et al. (2002):
`cosphi = -cos(g1)*cos(g2) - th*sin(g1)*sin(g2)`. -/
noncomputable def calc_cosphi (th g1 g2 : ℝ) : ℝ :=
  (-Real.cos g1) * Real.cos g2 - th * Real.sin g1 * Real.sin g2

/-- The `cosphi` recomputed inline in `Triple._deriv` (line 229):
`cosphi = cosg1 * cosg2 - th * sing1 * sing2`.  Note the missing leading
minus sign compared with `calc_cosphi`. -/
noncomputable def deriv_cosphi (th g1 g2 : ℝ) : ℝ :=
  Real.cos g1 * Real.cos g2 - th * Real.sin g1 * Real.sin g2

/-- `Triple.calc_G1` (lines 153–156): inner orbital angular momentum,
Eq. 6 of Blaes et al. (2002). -/
noncomputable def calc_G1 (Gc m1 m2 a1 e1 : ℝ) : ℝ :=
  m1 * m2 * Real.sqrt (Gc * a1 * (1 - e1 ^ 2) / (m1 + m2))

/-- `G1` recomputed inline in `Triple._deriv` (line 220). -/
noncomputable def deriv_G1 (Gc m1 m2 a1 e1 : ℝ) : ℝ :=
  m1 * m2 * Real.sqrt (Gc * a1 * (1 - e1 ^ 2) / (m1 + m2))

/-- `Triple.calc_G2` (lines 158–161): outer orbital angular momentum,
Eq. 7 of Blaes et al. (2002). -/
noncomputable def calc_G2 (Gc m1 m2 m3 a2 e2 : ℝ) : ℝ :=
  (m1 + m2) * m3 * Real.sqrt (Gc * a2 * (1 - e2 ^ 2) / (m1 + m2 + m3))

/-- `G2` recomputed inline in `Triple._deriv` (line 221). -/
noncomputable def deriv_G2 (Gc m1 m2 m3 a2 e2 : ℝ) : ℝ :=
  (m1 + m2) * m3 * Real.sqrt (Gc * a2 * (1 - e2 ^ 2) / (m1 + m2 + m3))

/-- `Triple.calc_C` (lines 163–178), quadrupole coefficient `C2`
(Eq. 18 of Blaes et al. 2002); zero when the quadrupole flag is off. -/
noncomputable def calc_C2 (quadrupole : Bool) (Gc m1 m2 m3 a1 a2 e2 : ℝ) : ℝ :=
  if quadrupole then
    Gc * m1 * m2 * m3 / (16 * (m1 + m2) * a2 * (1 - e2 ^ 2) ^ ((3 : ℝ) / 2)) *
      (a1 / a2) ^ 2
  else 0

/-- `Triple.calc_C` (lines 163–178), octupole coefficient `C3`
(Eq. 19 of Blaes et al. 2002), with the mass factor `(m1 - m2)`;
zero when the octupole flag is off. -/
noncomputable def calc_C3 (octupole : Bool) (Gc m1 m2 m3 a1 a2 e2 : ℝ) : ℝ :=
  if octupole then
    15 * Gc * m1 * m2 * m3 * (m1 - m2) /
      (64 * (m1 + m2) ^ 2 * a2 * (1 - e2 ^ 2) ^ ((5 : ℝ) / 2)) * (a1 / a2) ^ 3
  else 0

/-- `C2` recomputed inline in `Triple._deriv` (lines 223–224). -/
noncomputable def deriv_C2val (Gc m1 m2 m3 a1 a2 e2 : ℝ) : ℝ :=
  Gc * m1 * m2 * m3 / (16 * (m1 + m2) * a2 * (1 - e2 ^ 2) ^ ((3 : ℝ) / 2)) *
    (a1 / a2) ^ 2

/-- `C3` recomputed inline in `Triple._deriv` (lines 225–226).  Note the
mass factor `(m2 - m1)`, the negation of the `(m1 - m2)` of `calc_C3`. -/
noncomputable def deriv_C3val (Gc m1 m2 m3 a1 a2 e2 : ℝ) : ℝ :=
  15 * Gc * m1 * m2 * m3 * (m2 - m1) /
    (64 * (m1 + m2) ^ 2 * a2 * (1 - e2 ^ 2) ^ ((5 : ℝ) / 2)) * (a1 / a2) ^ 3

/-- `Triple.calc_th` (lines 180–185) and the inline recomputation in
`Triple._deriv` (line 228): mutual-inclination cosine
`th = (H^2 - G1^2 - G2^2) / (2*G1*G2)`, Eq. 22 of Blaes et al. (2002). -/
noncomputable def deriv_th (G1 G2 H : ℝ) : ℝ :=
  (H ^ 2 - G1 ^ 2 - G2 ^ 2) / (2 * G1 * G2)

/-! ## The massive-model equations of motion (`Triple._deriv`, lines 203–408)

`MState` is the packed solver state `y = [a1, e1, g1, e2, g2, H]` and
`MDeriv` the returned list `[da1dt, de1dt, dg1dt, de2dt, dg2dt, dHdt]`.
The term-inclusion flags and the fixed quantities (`self._m1, _m2, _m3,
_a2` and the constants `G`, `c`) are passed as parameters, exactly the data
`_deriv` reads from `self` and from `ts_constants`.  Every term of every
component, including the hexadecapole expressions, is transliterated from
the source; in the source each component starts at `0` and each enabled
term is added with `+=`, rendered here as a sum of `if`-guarded terms. -/

structure MFlags where
  quadrupole : Bool
  octupole : Bool
  hexadecapole : Bool
  gr : Bool

structure MState where
  a1 : ℝ
  e1 : ℝ
  g1 : ℝ
  e2 : ℝ
  g2 : ℝ
  H : ℝ

structure MDeriv where
  da1dt : ℝ
  de1dt : ℝ
  dg1dt : ℝ
  de2dt : ℝ
  dg2dt : ℝ
  dHdt : ℝ

set_option maxHeartbeats 1600000 in
/-- The hexadecapole contribution to `dg1dt` in `Triple._deriv`
(triplesec.py lines 252–296), transliterated verbatim. -/
noncomputable def hex_dg1dt (Gc m1 m2 m3 a1 a2 e1 e2 g1 g2 th : ℝ) : ℝ :=
      1 / (4096 * a2 ^ 5 * Real.sqrt (1 - e1 ^ 2) * (m1 + m2) ^ 5) * 45 *
        a1 ^ 3 * Real.sqrt (a1 * Gc * (m1 + m2)) *
        ((-1) / ((e2 ^ 2 - 1) ^ 4 * Real.sqrt (a2 * Gc * (m1 + m2 + m3))) *
          (m1 ^ 2 - m1 * m2 + m2 ^ 2) *
          (Real.sqrt (1 - e2 ^ 2) * m2 ^ 2 * m3 *
              Real.sqrt (a2 * Gc * (m1 + m2 + m3)) * th +
            m1 ^ 2 * (Real.sqrt (1 - e1 ^ 2) * m2 * Real.sqrt (a1 * Gc * (m1 + m2)) +
              Real.sqrt (1 - e2 ^ 2) * m3 * Real.sqrt (a2 * Gc * (m1 + m2 + m3)) * th) +
            m1 * m2 * (Real.sqrt (1 - e1 ^ 2) * m2 * Real.sqrt (a1 * Gc * (m1 + m2)) +
              Real.sqrt (1 - e1 ^ 2) * Real.sqrt (a1 * Gc * (m1 + m2)) * m3 +
              2 * Real.sqrt (1 - e2 ^ 2) * m3 *
                Real.sqrt (a2 * Gc * (m1 + m2 + m3)) * th)) *
          (96 * th + 480 * e1 ^ 2 * th + 180 * e1 ^ 4 * th + 144 * e2 ^ 2 * th +
            720 * e1 ^ 2 * e2 ^ 2 * th + 270 * e1 ^ 4 * e2 ^ 2 * th -
            224 * th ^ 3 - 1120 * e1 ^ 2 * th ^ 3 - 420 * e1 ^ 4 * th ^ 3 -
            336 * e2 ^ 2 * th ^ 3 - 1680 * e1 ^ 2 * e2 ^ 2 * th ^ 3 -
            630 * e1 ^ 4 * e2 ^ 2 * th ^ 3 +
            56 * e1 ^ 2 * (2 + e1 ^ 2) * (2 + 3 * e2 ^ 2) * th * (7 * th ^ 2 - 4) *
              Real.cos (2 * g1) -
            294 * e1 ^ 4 * (2 + 3 * e2 ^ 2) * th * (th ^ 2 - 1) * Real.cos (4 * g1) -
            147 * e1 ^ 4 * e2 ^ 2 * Real.cos (4 * g1 - 2 * g2) +
            441 * e1 ^ 4 * e2 ^ 2 * th ^ 2 * Real.cos (4 * g1 - 2 * g2) +
            294 * e1 ^ 4 * e2 ^ 2 * th ^ 3 * Real.cos (4 * g1 - 2 * g2) +
            140 * e1 ^ 2 * e2 ^ 2 * Real.cos (2 * (g1 - g2)) +
            70 * e1 ^ 4 * e2 ^ 2 * Real.cos (2 * (g1 - g2)) +
            336 * e1 ^ 2 * e2 ^ 3 * th * Real.cos (2 * (g1 - g2)) +
            168 * e1 ^ 4 * e2 ^ 2 * th * Real.cos (2 * (g1 - g2)) -
            588 * e1 ^ 2 * e2 ^ 2 * th ^ 2 * Real.cos (2 * (g1 - g2)) -
            294 * e1 ^ 4 * e2 ^ 2 * th ^ 2 * Real.cos (2 * (g1 - g2)) -
            784 * e1 ^ 2 * e2 ^ 2 * th ^ 3 * Real.cos (2 * (g1 - g2)) -
            392 * e1 ^ 4 * e2 ^ 2 * th ^ 3 * Real.cos (2 * (g1 - g2)) -
            128 * e2 ^ 2 * th * Real.cos (2 * g2) -
            640 * e1 ^ 2 * e2 ^ 2 * th * Real.cos (2 * g2) -
            240 * e1 ^ 4 * e2 ^ 2 * th * Real.cos (2 * g2) +
            224 * e2 ^ 2 * th ^ 3 * Real.cos (2 * g2) +
            1120 * e1 ^ 2 * e2 ^ 2 * th ^ 3 * Real.cos (2 * g2) +
            420 * e1 ^ 4 * e2 ^ 2 * th ^ 3 * Real.cos (2 * g2) -
            140 * e1 ^ 2 * e2 ^ 2 * Real.cos (2 * (g1 + g2)) -
            70 * e1 ^ 4 * e2 ^ 2 * Real.cos (2 * (g1 + g2)) +
            336 * e1 ^ 2 * e2 ^ 2 * th * Real.cos (2 * (g1 + g2)) +
            168 * e1 ^ 4 * e2 ^ 2 * th * Real.cos (2 * (g1 + g2)) +
            588 * e1 ^ 2 * e2 ^ 2 * th ^ 2 * Real.cos (2 * (g1 + g2)) +
            294 * e1 ^ 4 * e2 ^ 2 * th ^ 2 * Real.cos (2 * (g1 + g2)) -
            784 * e1 ^ 2 * e2 ^ 2 * th ^ 3 * Real.cos (2 * (g1 + g2)) -
            392 * e1 ^ 4 * e2 ^ 2 * th ^ 3 * Real.cos (2 * (g1 + g2)) +
            147 * e1 ^ 4 * e2 ^ 2 * Real.cos (2 * (2 * g1 + g2)) -
            441 * e1 ^ 4 * e2 ^ 2 * th ^ 2 * Real.cos (2 * (2 * g1 + g2)) +
            294 * e1 ^ 4 * e2 ^ 2 * th ^ 3 * Real.cos (2 * (2 * g1 + g2))) +
          1 / (e1 * Real.sqrt ((1 - e2 ^ 2) ^ 7)) *
          2 * (1 - e1 ^ 2) * (m1 + m2) * (m1 ^ 3 + m2 ^ 3) * m3 *
          (e1 * (4 + 3 * e1 ^ 2) * (2 + 3 * e2 ^ 2) *
              (3 - 30 * th ^ 2 + 35 * th ^ 4) -
            28 * (e1 + e1 ^ 3) * (2 + 3 * e2 ^ 2) * (1 - 8 * th ^ 2 + 7 * th ^ 4) *
              Real.cos (2 * g1) +
            147 * e1 ^ 3 * (2 + 3 * e2 ^ 2) * (th ^ 2 - 1) ^ 2 * Real.cos (4 * g1) -
            10 * e1 * (4 + 3 * e1 ^ 2) * e2 ^ 2 * (1 - 8 * th ^ 2 + 7 * th ^ 4) *
              Real.cos (2 * g2) +
            28 * (e1 + e1 ^ 3) * e2 ^ 2 * ((1 + th) ^ 2 * (1 - 7 * th + 7 * th ^ 2) *
                Real.cos (2 * (g1 - g2)) +
              (th - 1) ^ 2 * (1 + 7 * th + 7 * th ^ 2) * Real.cos (2 * (g1 + g2))) -
            147 * e1 ^ 3 * e2 ^ 2 * (th ^ 2 - 1) *
              ((1 + th) ^ 2 * Real.cos (4 * g1 - 2 * g2) +
                (th - 1) ^ 2 * Real.cos (2 * (2 * g1 + g2)))))

set_option maxHeartbeats 1600000 in
/-- The hexadecapole contribution to `de1dt` in `Triple._deriv`
(triplesec.py lines 309–318), transliterated verbatim. -/
noncomputable def hex_de1dt (Gc m1 m2 m3 a1 a2 e1 e2 g1 g2 th : ℝ) : ℝ :=
      (-(315 * a1 ^ 3 * e1 * Real.sqrt (1 - e1 ^ 2) * Real.sqrt (a1 * Gc * (m1 +
        m2)) * (m1 ^ 2 - m1 * m2 + m2 ^ 2) * m3 * (2 * (2 + e1 ^ 2) * (2 + 3 *
        e2 ^ 2) * (1 - 8 * th ^ 2 + 7 * th ^ 4) * Real.sin (2 * g1) - 21 * e1 ^ 2 * (2 +
        3 * e2 ^ 2) * (th ^ 2 - 1) ^ 2 * Real.sin (4 * g1) + e2 ^ 2 * (21 * e1 ^ 2 * (th -
        1) * (1 + th) ^ 3 * Real.sin (4 * g1 - 2 * g2) - 2 * (2 + e1 ^ 2) * (1 + th) ^ 2
        * (1 - 7 * th + 7 * th ^ 2) * Real.sin (2 * (g1 - g2)) - (th - 1) ^ 2 * (2 * (2
        + e1 ^ 2) * (1 + 7 * th + 7 * th ^ 2) * Real.sin (2 * (g1 + g2)) - 21 * e1 ^ 2 *
        (th ^ 2 - 1) * Real.sin (2 * (2 * g1 + g2)))))) / (2048 * a2 ^ 5 * Real.sqrt ((1 -
        e2 ^ 2) ^ 7) * (m1 + m2) ^ 3))

set_option maxHeartbeats 1600000 in
/-- The hexadecapole contribution to `dg2dt` in `Triple._deriv`
(triplesec.py lines 330–382), transliterated verbatim. -/
noncomputable def hex_dg2dt (Gc m1 m2 m3 a1 a2 e1 e2 g1 g2 th : ℝ) : ℝ :=
      (9 * a1 ^ 3 * ((-1) / Real.sqrt (1 - e1 ^ 2) * 10 * a2 * Real.sqrt (a1 * Gc *
        (m1 + m2)) * (m1 ^ 2 - m1 * m2 + m2 ^ 2) * (Real.sqrt (1 - e2 ^ 2) * m2 ^ 2 * m3
        * Real.sqrt (a2 * Gc * (m1 + m2 + m3)) + m1 ^ 2 * (Real.sqrt (1 - e2 ^ 2) * m3 *
        Real.sqrt (a2 * Gc * (m1 + m2 + m3)) + Real.sqrt (1 - e1 ^ 2) * m2 * Real.sqrt (a1 * Gc *
        (m1 + m2)) * th) + m1 * m2 * (2 * Real.sqrt (1 - e2 ^ 2) * m3 * Real.sqrt (a2 * Gc *
        (m1 + m2 + m3)) + Real.sqrt (1 - e1 ^ 2) * m2 * Real.sqrt (a1 * Gc * (m1 + m2)) * th
        + Real.sqrt (1 - e1 ^ 2) * Real.sqrt (a1 * Gc * (m1 + m2)) * m3 * th)) * (96 * th +
        480 * e1 ^ 2 * th + 180 * e1 ^ 4 * th + 144 * e2 ^ 2 * th + 720 * e1 ^ 2 *
        e2 ^ 2 * th + 270 * e1 ^ 4 * e2 ^ 2 * th - 224 * th ^ 3 - 1120 * e1 ^ 2 *
        th ^ 3 - 420 * e1 ^ 4 * th ^ 3 - 336 * e2 ^ 2 * th ^ 3 - 1680 * e1 ^ 2 *
        e2 ^ 2 * th ^ 3 - 630 * e1 ^ 4 * e2 ^ 2 * th ^ 3 + 56 * e1 ^ 2 * (2 + e1 ^ 2)
        * (2 + 3 * e2 ^ 2) * th * (7 * th ^ 2 - 4) * Real.cos (2 * g1) - 294 * e1 ^ 4 *
        (2 + 3 * e2 ^ 2) * th * (th ^ 2 - 1) * Real.cos (4 * g1) - 147 * e1 ^ 4 *
        e2 ^ 2 * Real.cos (4 * g1 - 2 * g2) + 441 * e1 ^ 4 * e2 ^ 2 * th ^ 2 *
        Real.cos (4 * g1 - 2 * g2) + 294 * e1 ^ 4 * e2 ^ 2 * th ^ 3 * Real.cos (4 * g1 - 2 *
        g2) + 140 * e1 ^ 2 * e2 ^ 2 * Real.cos (2 * (g1 - g2)) + 70 * e1 ^ 4 * e2 ^ 2 *
        Real.cos (2 * (g1 - g2)) + 336 * e1 ^ 2 * e2 ^ 2 * th * Real.cos (2 * (g1 - g2)) +
        168 * e1 ^ 4 * e2 ^ 2 * th * Real.cos (2 * (g1 - g2)) - 588 * e1 ^ 2 * e2 ^ 2 *
        th ^ 2 * Real.cos (2 * (g1 - g2)) - 294 * e1 ^ 4 * e2 ^ 2 * th ^ 2 * Real.cos (2 * (g1
        - g2)) - 784 * e1 ^ 2 * e2 ^ 2 * th ^ 3 * Real.cos (2 * (g1 - g2)) - 392 * e1 ^ 4
        * e2 ^ 2 * th ^ 3 * Real.cos (2 * (g1 - g2)) - 128 * e2 ^ 2 * th * Real.cos (2 * g2) -
        640 * e1 ^ 2 * e2 ^ 2 * th * Real.cos (2 * g2) - 240 * e1 ^ 4 * e2 ^ 2 * th *
        Real.cos (2 * g2) + 224 * e2 ^ 2 * th ^ 3 * Real.cos (2 * g2) + 1120 * e1 ^ 2 * e2 ^ 2
        * th ^ 3 * Real.cos (2 * g2) + 420 * e1 ^ 4 * e2 ^ 2 * th ^ 3 * Real.cos (2 * g2) - 140
        * e1 ^ 2 * e2 ^ 2 * Real.cos (2 * (g1 + g2)) - 70 * e1 ^ 4 * e2 ^ 2 * Real.cos (2 * (g1
        + g2)) + 336 * e1 ^ 2 * e2 ^ 2 * th * Real.cos (2 * (g1 + g2)) + 168 * e1 ^ 4 *
        e2 ^ 2 * th * Real.cos (2 * (g1 + g2)) + 588 * e1 ^ 2 * e2 ^ 2 * th ^ 2 * Real.cos (2
        * (g1 + g2)) + 294 * e1 ^ 4 * e2 ^ 2 * th ^ 2 * Real.cos (2 * (g1 + g2)) - 784 *
        e1 ^ 2 * e2 ^ 2 * th ^ 3 * Real.cos (2 * (g1 + g2)) - 392 * e1 ^ 4 * e2 ^ 2 *
        th ^ 3 * Real.cos (2 * (g1 + g2)) + 147 * e1 ^ 4 * e2 ^ 2 * Real.cos (2 * (2 * g1 +
        g2)) - 441 * e1 ^ 4 * e2 ^ 2 * th ^ 2 * Real.cos (2 * (2 * g1 + g2)) + 294 *
        e1 ^ 4 * e2 ^ 2 * th ^ 3 * Real.cos (2 * (2 * g1 + g2))) + a1 * a2 * Gc * m1 * m2
        * (m1 ^ 3 + m2 ^ 3) * (m1 + m2 + m3) * (-6 * (8 + 40 * e1 ^ 2 + 15 *
        e1 ^ 4) * (-1 + e2 ^ 2) * (3 - 30 * th ^ 2 + 35 * th ^ 4) + 7 * (8 + 40 *
        e1 ^ 2 + 15 * e1 ^ 4) * (2 + 3 * e2 ^ 2) * (3 - 30 * th ^ 2 + 35 * th ^ 4)
        + 840 * e1 ^ 2 * (2 + e1 ^ 2) * (-1 + e2 ^ 2) * (1 - 8 * th ^ 2 + 7 *
        th ^ 4) * Real.cos (2 * g1) - 980 * e1 ^ 2 * (2 + e1 ^ 2) * (2 + 3 * e2 ^ 2) * (1
        - 8 * th ^ 2 + 7 * th ^ 4) * Real.cos (2 * g1) - 4410 * e1 ^ 4 * (-1 + e2 ^ 2) *
        (-1 + th ^ 2) ^ 2 * Real.cos (4 * g1) + 5145 * e1 ^ 4 * (2 + 3 * e2 ^ 2) * (-1 +
        th ^ 2) ^ 2 * Real.cos (4 * g1) - 70 * (8 + 40 * e1 ^ 2 + 15 * e1 ^ 4) * e2 ^ 2 *
        (1 - 8 * th ^ 2 + 7 * th ^ 4) * Real.cos (2 * g2) + 20 * (8 + 40 * e1 ^ 2 + 15 *
        e1 ^ 4) * (-1 + e2 ^ 2) * (1 - 8 * th ^ 2 + 7 * th ^ 4) * Real.cos (2 * g2) + 980
        * e1 ^ 2 * (2 + e1 ^ 2) * e2 ^ 2 * ((1 + th) ^ 2 * (1 - 7 * th + 7 * th ^ 2)
        * Real.cos (2 * (g1 - g2)) + (-1 + th) ^ 2 * (1 + 7 * th + 7 * th ^ 2) * Real.cos (2
        * (g1 + g2))) - 280 * e1 ^ 2 * (2 + e1 ^ 2) * (-1 + e2 ^ 2) * ((1 + th) ^ 2
        * (1 - 7 * th + 7 * th ^ 2) * Real.cos (2 * (g1 - g2)) + (-1 + th) ^ 2 * (1 +
        7 * th + 7 * th ^ 2) * Real.cos (2 * (g1 + g2))) - 1470 * e1 ^ 4 * (1 - e2 ^ 2)
        * (-1 + th) * (1 + th) * ((1 + th) ^ 2 * Real.cos (4 * g1 - 2 * g2) + (-1 +
        th) ^ 2 * Real.cos (2 * (2 * g1 + g2))) - 5145 * e1 ^ 4 * e2 ^ 2 * (-1 + th ^ 2)
        * ((1 + th) ^ 2 * Real.cos (4 * g1 - 2 * g2) + (-1 + th) ^ 2 * Real.cos (2 * (2 * g1
        + g2)))))) / (8192 * a2 ^ 6 * (-1 + e2 ^ 2) ^ 4 * (m1 + m2) ^ 5 * Real.sqrt (a2 *
        Gc * (m1 + m2 + m3)))

set_option maxHeartbeats 1600000 in
/-- The hexadecapole contribution to `de2dt` in `Triple._deriv`
(triplesec.py lines 389–398), transliterated verbatim. -/
noncomputable def hex_de2dt (Gc m1 m2 m3 a1 a2 e1 e2 g1 g2 th : ℝ) : ℝ :=
      45 * a1 ^ 4 * e2 * m1 * m2 * (m1 ^ 2 - m1 * m2 + m2 ^ 2) *
        Real.sqrt (a2 * Gc * (m1 + m2 + m3)) * (-147 * e1 ^ 4 * (-1 + th) * (1 +
        th) ^ 3 * Real.sin (4 * g1 - 2 * g2) + 28 * e1 ^ 2 * (2 + e1 ^ 2) * (1 +
        th) ^ 2 * (1 - 7 * th + 7 * th ^ 2) * Real.sin (2 * (g1 - g2)) + (-1 + th) *
        (2 * (8 + 40 * e1 ^ 2 + 15 * e1 ^ 4) * (-1 - th + 7 * th ^ 2 + 7 *
        th ^ 3) * Real.sin (2 * g2) - 7 * e1 ^ 2 * (-1 + th) * (4 * (2 + e1 ^ 2) * (1
        + 7 * th + 7 * th ^ 2) * Real.sin (2 * (g1 + g2)) - 21 * e1 ^ 2 * (-1 + th ^ 2)
        * Real.sin (2 * (2 * g1 + g2))))) / (4096 * a2 ^ 6 * (-1 + e2 ^ 2) ^ 3 * (m1 +
        m2) ^ 4)

set_option maxHeartbeats 1600000 in
/-- `Triple._deriv` (triplesec.py lines 203–408), the equations of motion of
the massive model (Eqs. 11–17 of Blaes et al. 2002 plus hexadecapole
terms).  `Gc` and `cc` are the constants `G` and `c` of `ts_constants`. -/
noncomputable def triple_deriv (fl : MFlags) (Gc cc m1 m2 m3 a2 : ℝ)
    (y : MState) : MDeriv :=
  let a1 := y.a1
  let e1 := y.e1
  let g1 := y.g1
  let e2 := y.e2
  let g2 := y.g2
  let H := y.H
  let sing1 := Real.sin g1
  let sing2 := Real.sin g2
  let cosg1 := Real.cos g1
  let cosg2 := Real.cos g2
  let G1 := deriv_G1 Gc m1 m2 a1 e1
  let G2 := deriv_G2 Gc m1 m2 m3 a2 e2
  let C2 := deriv_C2val Gc m1 m2 m3 a1 a2 e2
  let C3 := deriv_C3val Gc m1 m2 m3 a1 a2 e2
  let th := deriv_th G1 G2 H
  let cosphi := deriv_cosphi th g1 g2
  let B := 2 + 5 * e1 ^ 2 - 7 * e1 ^ 2 * Real.cos (2 * g1)
  let A := 4 + 3 * e1 ^ 2 - 5 / 2 * (1 - th ^ 2) * B
  -- Eq. 11 of Blaes et al. (2002), lines 234-237
  let da1dt :=
    if fl.gr then
      -(64 * Gc ^ 3 * m1 * m2 * (m1 + m2) / (5 * cc ^ 5 * a1 ^ 3 *
        Real.sqrt ((1 - e1 ^ 2) ^ 7)) * (1 + 73 / 24 * e1 ^ 2 + 37 / 96 * e1 ^ 4))
    else 0
  -- Eq. 12 of Blaes et al. (2002), lines 240-296
  let dg1dt :=
    (if fl.quadrupole then
      6 * C2 * (1 / G1 * (4 * th ^ 2 + (5 * Real.cos (2 * g1) - 1) *
        (1 - e1 ^ 2 - th ^ 2)) + th / G2 * (2 + e1 ^ 2 * (3 - 5 * Real.cos (2 * g1))))
    else 0) +
    (if fl.octupole then
      C3 * e2 * e1 * (1 / G2 + th / G1) * (sing1 * sing2 *
        (A + 10 * (3 * th ^ 2 - 1) * (1 - e1 ^ 2)) - 5 * th * B * cosphi) - C3
        * e2 * (1 - e1 ^ 2) / (e1 * G1) * (10 * th * (1 - th ^ 2) * (1 - 3 *
        e1 ^ 2) * sing1 * sing2 + cosphi * (3 * A - 10 * th ^ 2 + 2))
    else 0) +
    (if fl.gr then
      3 / (cc ^ 2 * a1 * (1 - e1 ^ 2)) * Real.sqrt ((Gc * (m1 + m2) / a1) ^ 3)
    else 0) +
    (if fl.hexadecapole then hex_dg1dt Gc m1 m2 m3 a1 a2 e1 e2 g1 g2 th
    else 0)
  -- Eq. 13 of Blaes et al. (2002), lines 299-318
  let de1dt :=
    (if fl.quadrupole then
      30 * C2 * e1 * (1 - e1 ^ 2) / G1 * (1 - th ^ 2) * Real.sin (2 * g1)
    else 0) +
    (if fl.octupole then
      -C3 * e2 * (1 - e1 ^ 2) / G1 * (35 * cosphi * (1 - th ^ 2) *
        e1 ^ 2 * Real.sin (2 * g1) - 10 * th * (1 - e1 ^ 2) * (1 - th ^ 2) *
        cosg1 * sing2 - A * (sing1 * cosg2 - th * cosg1 * sing2))
    else 0) +
    (if fl.gr then
      -304 * Gc ^ 3 * m1 * m2 * (m1 + m2) * e1 / (15 * cc ^ 4 * a1 ^ 4 *
        Real.sqrt ((1 - e1 ^ 2) ^ 5)) * (1 + 121 / 304 * e1 ^ 2)
    else 0) +
    (if fl.hexadecapole then hex_de1dt Gc m1 m2 m3 a1 a2 e1 e2 g1 g2 th
    else 0)
  -- Eq. 15 of Blaes et al. (2002), lines 320-382
  let dg2dt :=
    (if fl.quadrupole then
      3 * C2 * (2 * th / G1 * (2 + e1 ^ 2 * (3 - 5 * Real.cos (2 * g1))) + 1
        / G2 * (4 + 6 * e1 ^ 2 + (5 * th ^ 2 - 3) * (2 + 3 * e1 ^ 2 - 5 * e1 ^ 2 *
        Real.cos (2 * g1))))
    else 0) +
    (if fl.octupole then
      -C3 * e1 * sing1 * sing2 * ((4 * e2 ^ 2 + 1) / (e2 * G2) * 10 *
        th * (1 - th ^ 2) * (1 - e1 ^ 2) - e2 * (1 / G1 + th / G2) * (A + 10 *
        (3 * th ^ 2 - 1) * (1 - e1 ^ 2))) - C3 * e1 * cosphi * (5 * B * th *
        e2 * (1 / G1 + th / G2) + (4 * e2 ^ 2 + 1) / (e2 * G2) * A)
    else 0) +
    (if fl.hexadecapole then hex_dg2dt Gc m1 m2 m3 a1 a2 e1 e2 g1 g2 th
    else 0)
  -- Eq. 16 of Blaes et al. (2002), lines 385-398
  let de2dt :=
    (if fl.octupole then
      C3 * e1 * (1 - e2 ^ 2) / G2 * (10 * th * (1 - th ^ 2) * (1 -
      e1 ^ 2) * sing1 * cosg2 + A * (cosg1 * sing2 - th * sing1 * cosg2))
    else 0) +
    (if fl.hexadecapole then hex_de2dt Gc m1 m2 m3 a1 a2 e1 e2 g1 g2 th
    else 0)
  -- Eq. 17 of Blaes et al. (2002), lines 400-405
  let dHdt :=
    if fl.gr then
      -32 * Gc ^ 3 * m1 ^ 2 * m2 ^ 2 / (5 * cc ^ 5 * a1 ^ 3 *
        (1 - e1 ^ 2) ^ 2) * Real.sqrt (Gc * (m1 + m2) / a1) * (1 + 7 / 8 * e1 ^ 2) *
        (G1 + G2 * th) / H
    else 0
  ⟨da1dt, de1dt, dg1dt, de2dt, dg2dt, dHdt⟩

/-! ## The test-particle equations of motion (`Triple_vector._deriv`,
ts_vector.py lines 199–227)

The solver state is `y = [jx, jy, jz, ex, ey, ez]`.  The octupole strength
`epsoct` is the single extra parameter (`set_f_params(self.epsoct)`); the
`quadrupole`/`octupole` attributes of `Triple_vector` are not consulted by
`_deriv`, so the quadrupole-only vector field is the one with `epsoct = 0`. -/

structure V3 where
  x : ℝ
  y : ℝ
  z : ℝ

/-- Componentwise sum of two 3-vectors (`numpy` array addition). -/
noncomputable def v3add (a b : V3) : V3 :=
  ⟨a.x + b.x, a.y + b.y, a.z + b.z⟩

/-- Scalar multiple of a 3-vector (`numpy` scalar broadcasting). -/
noncomputable def v3smul (s : ℝ) (a : V3) : V3 :=
  ⟨s * a.x, s * a.y, s * a.z⟩

/-- Cross product of two 3-vectors (`np.cross`). -/
noncomputable def v3cross (a b : V3) : V3 :=
  ⟨a.y * b.z - a.z * b.y, a.z * b.x - a.x * b.z, a.x * b.y - a.y * b.x⟩

structure VState where
  jx : ℝ
  jy : ℝ
  jz : ℝ
  ex : ℝ
  ey : ℝ
  ez : ℝ

/-- `Triple_vector._deriv` (ts_vector.py lines 199–227): the vectorial
equations of motion of Eqs. 4 of Katz et al. (2011). -/
noncomputable def tv_deriv (epsoct : ℝ) (y : VState) : VState :=
  let e_sq := y.ex ^ 2 + y.ey ^ 2 + y.ez ^ 2
  let grad_j_phi_q : V3 := ⟨0, 0, 3 / 4 * y.jz⟩
  let grad_j_phi_oct : V3 :=
    v3smul (-(75 / 32)) ⟨y.ez * y.jz, 0, y.ex * y.jz + y.ez * y.jx⟩
  let grad_e_phi_q : V3 := ⟨3 / 2 * y.ex, 3 / 2 * y.ey, -(9 / 4) * y.ez⟩
  let grad_e_phi_oct : V3 :=
    ⟨75 / 64 * (1 / 5 - 8 / 5 * e_sq + 7 * y.ez ^ 2 - y.jz ^ 2) -
        15 / 4 * y.ex ^ 2,
      -(15 / 4) * y.ex * y.ey,
      75 / 64 * (54 / 5 * y.ex * y.ez - 2 * y.jx * y.jz)⟩
  let grad_j_phi := v3add grad_j_phi_q (v3smul epsoct grad_j_phi_oct)
  let grad_e_phi := v3add grad_e_phi_q (v3smul epsoct grad_e_phi_oct)
  let jv : V3 := ⟨y.jx, y.jy, y.jz⟩
  let ev : V3 := ⟨y.ex, y.ey, y.ez⟩
  let djdtau := v3add (v3cross jv grad_j_phi) (v3cross ev grad_e_phi)
  let dedtau := v3add (v3cross jv grad_e_phi) (v3cross ev grad_j_phi)
  ⟨djdtau.x, djdtau.y, djdtau.z, dedtau.x, dedtau.y, dedtau.z⟩

/-- Kozai integral of `Triple_vector.calc_Th` (ts_vector.py lines 190–192):
`Th = (1 - e1^2) * cos(inc)^2`.  On the solver state this quantity is
`jz^2`, because `jvec = sqrt(1 - e1^2) * jhatvec` with `jhatvec_z = cos(inc)`
(lines 77 and 92–96), so `jz = sqrt(1 - e1^2) * cos(inc)`.  Its derivative
along the vector field `tv_deriv` is `2 * jz * (d jz / d tau)` by the chain
rule. -/
noncomputable def tv_Theta_dot (epsoct : ℝ) (y : VState) : ℝ :=
  2 * y.jz * (tv_deriv epsoct y).jz

/-! ## The driver loop (`Triple.integrate`, triplesec.py lines 419–436, and
`Triple_vector.integrate`, ts_vector.py lines 237–250)

Both loops have the guard
`self.t < self.tstop and (time.time() - self.tstart) < self.cputstop`.
The external pieces are abstracted: the single solver step becomes a
function `stepf` on the physical time, the successive wall-clock readings
`time.time() - self.tstart` become a sequence `elapsedAt` indexed by the
number of completed steps, and the collision test
`self.a1 * (1 - self.e1) < self.r1 + self.r2` of `Triple.integrate` becomes
a predicate `collided` on the post-step state (instantiate it with
`fun _ => false` for `Triple_vector.integrate`, which has no collision
check).  `fuel` bounds the number of iterations; the result is the final
`(t, nstep)`. -/

def integrate_loop (stepf : ℚ → ℚ) (elapsedAt : ℕ → ℚ) (collided : ℚ → Bool)
    (tstop cputstop : ℚ) : ℕ → ℚ → ℕ → ℚ × ℕ
  | 0, t, n => (t, n)
  | fuel + 1, t, n =>
    if t < tstop ∧ elapsedAt n < cputstop then
      let t2 := stepf t
      if collided t2 then (t2, n + 1)
      else integrate_loop stepf elapsedAt collided tstop cputstop fuel t2 (n + 1)
    else (t, n)

/-! ## The constructor override of `epsoct` (triplesec.py lines 89–113,
ts_vector.py lines 79–104)

`Option` is the exception monad here: a `none` result models a `TypeError`
raised during construction.  In Python, multiplying or squaring the `None`
sentinel raises `TypeError`, while `None == 0` is simply `False`. -/

/-- The fields of `Triple.__init__` touched by the `epsoct` override:
the resolved `epsoct`, the possibly-invalidated `a1`, `a2`, `e2`
(`none` is the `None` sentinel), the unit-converted `self._a1`, `self._a2`
(named `a1cgs`, `a2cgs` here), and the possibly auto-disabled octupole
flag. -/
structure TripleGeom where
  epsoct : ℚ
  a1 : Option ℚ
  a2 : Option ℚ
  e2 : Option ℚ
  a1cgs : ℚ
  a2cgs : ℚ
  octupole : Bool

/-- The geometry slice of `Triple.__init__` (triplesec.py lines 71–74,
89–96, 105–106 and 112–113), in source order.  Lines 90–96: if `epsoct` is
not given it is derived from `e2, a1, a2`; otherwise it overrides them and
`e2`, `a1`, `a2` are set to the `None` sentinel.  Lines 105–106 then
compute `self._a1 = self.a1 * au` and `self._a2 = self.a2 * au`, which
raises `TypeError` when the sentinel is present — modelled by the monadic
binds.  Line 112 disables the octupole flag when `self.e2 == 0` (the
sentinel compares unequal to `0` in Python). -/
def triple_init_geom (au : ℚ) (a1_in a2_in e2_in : ℚ) (octupole_in : Bool)
    (epsoct_in : Option ℚ) : Option TripleGeom :=
  let st : ℚ × Option ℚ × Option ℚ × Option ℚ :=
    match epsoct_in with
    | none => (e2_in / (1 - e2_in ^ 2) * a1_in / a2_in,
               some a1_in, some a2_in, some e2_in)
    | some eps => (eps, none, none, none)
  do
    let a1v ← st.2.1
    let a2v ← st.2.2.1
    let octu := if st.2.2.2 = some 0 then false else octupole_in
    pure ⟨st.1, st.2.1, st.2.2.1, st.2.2.2, a1v * au, a2v * au, octu⟩

/-- The geometry slice of `Triple_vector.__init__` (ts_vector.py lines
60–63, 79–85, 103–104 and 114), in source order.  Lines 79–85 are the same
`epsoct` override; lines 103–104 then compute
`Phi0 = 4*pi^2*m3*a1^2 / (a2^3*(1 - e2^2)^(3/2))`, which raises `TypeError`
on the `None` sentinel (`self.a1**2`), and line 114 computes
`tsec = 2*pi*sqrt(m1*a1)/Phi0`.  The result is `(epsoct, Phi0, tsec)`. -/
noncomputable def tv_init_geom (a1_in a2_in e2_in m1 m3 : ℝ)
    (epsoct_in : Option ℝ) : Option (ℝ × ℝ × ℝ) :=
  let st : ℝ × Option ℝ × Option ℝ × Option ℝ :=
    match epsoct_in with
    | none => (e2_in / (1 - e2_in ^ 2) * (a1_in / a2_in),
               some a1_in, some a2_in, some e2_in)
    | some eps => (eps, none, none, none)
  do
    let a1v ← st.2.1
    let a2v ← st.2.2.1
    let e2v ← st.2.2.2
    let Phi0 := 4 * Real.pi ^ 2 * m3 * a1v ^ 2 /
      (a2v ^ 3 * (1 - e2v ^ 2) ^ ((3 : ℝ) / 2))
    let tsec := 2 * Real.pi * Real.sqrt (m1 * a1v) / Phi0
    pure (st.1, Phi0, tsec)

/-! ## Output-file events of the integration modes

Each routine is modelled as the list of operations it performs on the
output file: one `write` per line written to it (a `print` to stdout when
no file was opened leaves no file event) and one `close` where the source
closes it.  The solver is abstracted as before: each list element is the
relevant post-step data read inside the loop body, and the list ends when
the loop guard stops the loop. -/

inductive FileOp where
  | write : FileOp
  | close : FileOp
deriving DecidableEq

/-- One printout: a write when a file was opened, nothing otherwise. -/
def wrOp (opened : Bool) : List FileOp := if opened then [FileOp.write] else []

/-- The loop of `Triple.integrate` (lines 423–432): each sample is the
post-step `(a1, e1)`; a printout happens on every `outfreq`-th step, and a
collision (`a1 * (1 - e1) < r1 + r2`) breaks out of the loop. -/
def integrate_loop_ops (opened : Bool) (outfreq : ℕ) (r1 r2 : ℚ) :
    List (ℚ × ℚ) → ℕ → List FileOp
  | [], _ => []
  | (a1, e1) :: rest, nstep =>
    (if (nstep + 1) % outfreq = 0 then wrOp opened else []) ++
    (if a1 * (1 - e1) < r1 + r2 then []
     else integrate_loop_ops opened outfreq r1 r2 rest (nstep + 1))

/-- `Triple.integrate` (triplesec.py lines 419–436): initial printout, the
loop, a final printout, and — on every exit path, collision included — a
close when a file was opened (lines 434–436). -/
def integrate_ops (opened : Bool) (outfreq : ℕ) (r1 r2 : ℚ)
    (samples : List (ℚ × ℚ)) : List FileOp :=
  wrOp opened ++ integrate_loop_ops opened outfreq r1 r2 samples 0 ++
    wrOp opened ++ (if opened then [FileOp.close] else [])

/-- `Triple.ecc_extrema` (triplesec.py lines 438–455): each sample is the
post-step `(t, e1)`; a line is written at each detected maximum
(`e_prev2 < e_prev > e1`).  The routine ends when the loop guard stops the
loop — and the source contains no `close` on any exit path. -/
def ecc_extrema_ops_m (opened : Bool) :
    List (ℚ × ℚ) → ℚ → ℚ → List FileOp
  | [], _, _ => []
  | (_, e) :: rest, e_prev, e_prev2 =>
    (if e_prev2 < e_prev ∧ e_prev > e then wrOp opened else []) ++
    ecc_extrema_ops_m opened rest e e_prev

/-- `Triple_vector.ecc_extrema` (ts_vector.py lines 252–271): the same
detection loop, but lines 270–271 close the file (when one was opened)
after the loop ends. -/
def ecc_extrema_ops_v (opened : Bool) :
    List (ℚ × ℚ) → ℚ → ℚ → List FileOp
  | [], _, _ => if opened then [FileOp.close] else []
  | (_, e) :: rest, e_prev, e_prev2 =>
    (if e_prev2 < e_prev ∧ e_prev > e then wrOp opened else []) ++
    ecc_extrema_ops_v opened rest e e_prev

/-! ## The event detectors -/

/-- The reported `(t_prev, e_prev)` pairs of the extremum detector shared
by `Triple_vector.ecc_extrema` (ts_vector.py lines 252–268) and
`Triple.ecc_extrema` (triplesec.py lines 438–455): starting from
`t_prev = e_prev = e_prev2 = 0`, after each step with new sample `(t, e)`
a maximum is reported as the pair `(t_prev, e_prev)` whenever
`e_prev2 < e_prev > e`, and then the history shifts. -/
def ecc_extrema_outs :
    List (ℚ × ℚ) → ℚ → ℚ → ℚ → List (ℚ × ℚ)
  | [], _, _, _ => []
  | (t, e) :: rest, t_prev, e_prev, e_prev2 =>
    (if e_prev2 < e_prev ∧ e_prev > e then [(t_prev, e_prev)] else []) ++
    ecc_extrema_outs rest t e e_prev

/-- `np.sign` on rationals. -/
def np_sign (x : ℚ) : ℚ := if 0 < x then 1 else if x < 0 then -1 else 0

/-- The reported `(t_prev, e_prev)` pairs of `Triple_vector.printflips`
(ts_vector.py lines 273–293).  Each sample is the post-step `(t, e, jz)`
with `e = np.linalg.norm(self.evec)` and `jz = self.jvec[2]`.  When a
maximum is detected, a flip is reported when `np.sign(jz)` differs from
`sign_prev`, and `sign_prev` is updated — only inside the
maximum-detection branch, so it always holds the sign observed at the
previous detected maximum (initially the sign at construction). -/
def printflips_outs_v :
    List (ℚ × ℚ × ℚ) → ℚ → ℚ → ℚ → ℚ → List (ℚ × ℚ)
  | [], _, _, _, _ => []
  | (t, e, jz) :: rest, t_prev, e_prev, e_prev2, sign_prev =>
    if e_prev2 < e_prev ∧ e_prev > e then
      (if np_sign jz ≠ sign_prev then [(t_prev, e_prev)] else []) ++
      printflips_outs_v rest t e e_prev (np_sign jz)
    else
      printflips_outs_v rest t e e_prev sign_prev

/-- Modelled from the spec: this is `Triple.printflips` (triplesec.py lines
457–476), whose last loop-body assignment `e_prev = e` (line 475) uses a
variable `e` that the spec (Design Notes) records as "a free variable that
is never defined in its enclosing scope"; what is missing from the
repository snapshot is the star-imported module `ts_constants`, taken here,
per the spec, not to bind `e`.  Hence the first executed loop iteration
raises `NameError` at line 475 — after its extremum check, which cannot
fire on that iteration because `e_prev2 = e_prev = 0` — and the routine
aborts having reported nothing and without reaching the
`self.outfile.close()` of line 476.  The `none` result models the raised
exception; with an empty loop (`t >= tstop` at entry) nothing is reported
and the routine returns normally. -/
def printflips_run_m (samples : List (ℚ × ℚ × ℚ)) : Option (List (ℚ × ℚ)) :=
  match samples with
  | [] => some []
  | _ :: _ => none

/-! ## The initial eccentricity-vector root solve (`_evec_root`,
ts_vector.py lines 351–364) -/

/-- `jhatvec` of `Triple_vector.__init__` (ts_vector.py lines 92–95):
the unit angular-momentum direction from inclination and node. -/
noncomputable def jhatvec (inc Omega : ℝ) : V3 :=
  ⟨Real.sin inc * Real.sin Omega,
   -Real.sin inc * Real.cos Omega,
   Real.cos inc⟩

/-- The degree-to-radian conversion applied to the `inc` input
(ts_vector.py line 64, triplesec.py line 75). -/
noncomputable def deg2rad (deg : ℝ) : ℝ := deg * Real.pi / 180

/-- The divisor `crossnorm = np.sqrt(j[0]**2 + j[1]**2)` of `_evec_root`
(ts_vector.py line 361). -/
noncomputable def evec_crossnorm (j : V3) : ℝ := Real.sqrt (j.x ^ 2 + j.y ^ 2)

/-- The third root condition of `_evec_root` (ts_vector.py line 362):
`cond3 = x[0]*j[1]/crossnorm - x[1]*j[0]/crossnorm + cos(g1)`. -/
noncomputable def evec_cond3 (x j : V3) (g1 : ℝ) : ℝ :=
  x.x * j.y / evec_crossnorm j - x.y * j.x / evec_crossnorm j + Real.cos g1

/-! ## Claims C1, C2, C6, C7 -/

/-- Claim C1: the claim states that every octupole-order contribution of the
massive-model derivative uses `cos phi = -cos g1 * cos g2 - th * sin g1 *
sin g2` (the formula of `Triple.calc_cosphi`, Eq. 23 of Blaes et al. 2002).
The `cosphi` actually recomputed inside `Triple._deriv` (line 229) and used
in all its octupole terms is `deriv_cosphi`, which omits the leading minus
sign.  At the state with `g1 = g2 = 0` (and any `th`, here `0`) the two
formulas give `1` and `-1` respectively, so the claim fails on the code:
`_deriv` contradicts the documented `calc_cosphi` of the same class. -/
theorem C1_deriv_cosphi_sign_flip :
    deriv_cosphi 0 0 0 = 1 ∧ calc_cosphi 0 0 0 = -1 := by
  constructor <;> simp [deriv_cosphi, calc_cosphi]

/-- Claim C2: inside `Triple._deriv` the recomputed `C2`, `G1`, `G2` agree
with `Triple.calc_C` / `calc_G1` / `calc_G2` (with the flags enabled), and
the recomputed `C3` is the exact negation of the `calc_C` value (the inline
code uses the mass factor `(m2 - m1)` where `calc_C` uses `(m1 - m2)`), so
the two `C3` values differ whenever `m1 ≠ m2`: concretely at
`G = 1, m1 = 2, m2 = 1, m3 = 1, a1 = 1, a2 = 1, e2 = 0` the inline value is
`-5/96` while `calc_C` gives `5/96`.  The claimed equality of the `C3`
values therefore fails on the code. -/
theorem C2_deriv_coefficients :
    (∀ Gc m1 m2 m3 a1 a2 e2 : ℝ,
      deriv_C2val Gc m1 m2 m3 a1 a2 e2 = calc_C2 true Gc m1 m2 m3 a1 a2 e2) ∧
    (∀ Gc m1 m2 a1 e1 : ℝ,
      deriv_G1 Gc m1 m2 a1 e1 = calc_G1 Gc m1 m2 a1 e1) ∧
    (∀ Gc m1 m2 m3 a2 e2 : ℝ,
      deriv_G2 Gc m1 m2 m3 a2 e2 = calc_G2 Gc m1 m2 m3 a2 e2) ∧
    (∀ Gc m1 m2 m3 a1 a2 e2 : ℝ,
      deriv_C3val Gc m1 m2 m3 a1 a2 e2 = -calc_C3 true Gc m1 m2 m3 a1 a2 e2) ∧
    deriv_C3val 1 2 1 1 1 1 0 ≠ calc_C3 true 1 2 1 1 1 1 0 := by
  refine ⟨fun Gc m1 m2 m3 a1 a2 e2 => by simp [deriv_C2val, calc_C2],
          fun Gc m1 m2 a1 e1 => rfl,
          fun Gc m1 m2 m3 a2 e2 => rfl,
          fun Gc m1 m2 m3 a1 a2 e2 => by
            simp only [deriv_C3val, calc_C3, if_true]
            ring,
          ?_⟩
  have h1 : ((1 : ℝ) - 0 ^ 2) = 1 := by norm_num
  simp only [deriv_C3val, calc_C3, if_true, h1, Real.one_rpow]
  norm_num

/-- Claim C6: with only the quadrupole term enabled and GR disabled, the
equations of motion conserve the total angular momentum and the Kozai
integral at the level of the vector field.  Massive model: for every state
the `dHdt` component of `Triple._deriv` with flags
`(quadrupole, octupole, hexadecapole, gr) = (true, false, false, false)` is
`0` (only the GR term ever contributes to `dHdt`).  Test-particle model:
the quadrupole-only vector field is `tv_deriv 0` (the octupole gradient
enters `_deriv` only scaled by `epsoct`), and along it the derivative of
`Theta = (1 - e1^2) * cos(i)^2 = jz^2` vanishes identically. -/
theorem C6_quadrupole_only_conservation :
    (∀ (Gc cc m1 m2 m3 a2 : ℝ) (y : MState),
      (triple_deriv ⟨true, false, false, false⟩ Gc cc m1 m2 m3 a2 y).dHdt = 0) ∧
    (∀ y : VState, tv_Theta_dot 0 y = 0) := by
  constructor
  · intro Gc cc m1 m2 m3 a2 y
    rfl
  · intro y
    simp [tv_Theta_dot, tv_deriv, v3add, v3smul, v3cross]
    exact Or.inr (by ring)

/-- Claim C7: for every state and every combination of the
quadrupole/octupole/hexadecapole flags, with the GR flag disabled the
`da1dt` component of `Triple._deriv` is exactly `0`: in the source `da1dt`
starts at `0` and only the `if self.gr:` branch adds to it. -/
theorem C7_da1dt_zero_without_gr (q o h : Bool) (Gc cc m1 m2 m3 a2 : ℝ)
    (y : MState) :
    (triple_deriv ⟨q, o, h, false⟩ Gc cc m1 m2 m3 a2 y).da1dt = 0 := rfl

/-! ## Claims C3, C4, C5, C8, C9, C10 -/

/-- Claim C3: the claim states that `cputstop = -1` means an unlimited CPU
budget, with the loop stepping until `t` reaches `tstop`.  In the code the
guard is `t < tstop and elapsed < cputstop`; since wall-clock elapsed time
is nonnegative, `elapsed < -1` is false at the very first check, so for any
step function, any nonnegative elapsed-time sequence, any collision
predicate, any `tstop` and any starting time the loop exits immediately
with zero steps taken — the opposite of an unlimited budget. -/
theorem C3_cputstop_minus_one_stops_immediately (stepf : ℚ → ℚ)
    (elapsedAt : ℕ → ℚ) (collided : ℚ → Bool) (tstop t0 : ℚ) (fuel : ℕ)
    (h : 0 ≤ elapsedAt 0) :
    integrate_loop stepf elapsedAt collided tstop (-1) fuel t0 0 = (t0, 0) := by
  cases fuel with
  | zero => rfl
  | succ m =>
    have hlt : ¬ elapsedAt 0 < (-1 : ℚ) := by linarith
    simp [integrate_loop, hlt]

/-- Witness for C3: a concrete run (`tstop = 1000`, start `t = 0`, five
steps of fuel, zero elapsed time) exits at once with zero steps, even
though `t < tstop`. -/
theorem C3_witness :
    (0 : ℚ) ≤ 0 ∧
    integrate_loop (fun t => t + 1) (fun _ => 0) (fun _ => false)
      1000 (-1) 5 0 0 = (0, 0) :=
  ⟨le_refl 0,
    C3_cputstop_minus_one_stops_immediately (fun t => t + 1) (fun _ => 0)
      (fun _ => false) 1000 0 5 (le_refl 0)⟩

/-- Claim C4: the claim states that supplying `epsoct` makes construction
succeed with the overridden fields set to an "undefined" sentinel.  The
code does set `a1 = a2 = e2 = None`, but construction then crashes: both
constructors immediately evaluate arithmetic on the sentinel
(`self.a1 * au` in `Triple.__init__` line 105, `self.a1**2` in
`Triple_vector.__init__` line 103), raising `TypeError`, so no usable model
object is produced.  Without `epsoct` the same slices succeed. -/
theorem C4_epsoct_override_aborts_init :
    triple_init_geom 1 1 20 (3 / 10) true (some (1 / 100)) = none ∧
    (triple_init_geom 1 1 20 (3 / 10) true none).isSome = true ∧
    tv_init_geom 1 20 (3 / 10) 1 1 (some (1 / 100)) = none ∧
    (tv_init_geom 1 20 (3 / 10) 1 1 none).isSome = true :=
  ⟨rfl, rfl, rfl, rfl⟩

/-- Claim C5: the claim states that every termination path of every
integration mode closes the output file when one was opened.  On a run of
`Triple.ecc_extrema` with an opened file that detects one maximum and then
terminates normally, the file-event trace contains a `write` but no
`close` — the source of `Triple.ecc_extrema` has no close on any path —
while the traces of `Triple_vector.ecc_extrema` and `Triple.integrate` on
the same data do contain the `close`. -/
theorem C5_ecc_extrema_missing_close :
    FileOp.close ∉ ecc_extrema_ops_m true [(1, 1/10), (2, 3/10), (3, 1/10)] 0 0 ∧
    FileOp.write ∈ ecc_extrema_ops_m true [(1, 1/10), (2, 3/10), (3, 1/10)] 0 0 ∧
    FileOp.close ∈ ecc_extrema_ops_v true [(1, 1/10), (2, 3/10), (3, 1/10)] 0 0 ∧
    FileOp.close ∈ integrate_ops true 1 0 0 [(1, 1/10)] := by
  refine ⟨?_, ?_, ?_, ?_⟩ <;>
    norm_num [ecc_extrema_ops_m, ecc_extrema_ops_v, integrate_ops,
      integrate_loop_ops, wrOp] <;> decide

/-- Claim C8: on the literal eccentricity sequence
`[0.1, 0.3, 0.5, 0.4, 0.2]` sampled at times `[0, 1, 2, 3, 4]`, the
extremum detector reports exactly one maximum, the pair `t = 2`,
`e = 0.5`. -/
theorem C8_extremum_detector_literal_sequence :
    ecc_extrema_outs [(0, 1/10), (1, 3/10), (2, 1/2), (3, 2/5), (4, 1/5)]
      0 0 0 = [(2, 1/2)] := by
  norm_num [ecc_extrema_outs]

/-- Claim C9: the claim covers both flip-detection routines.  For the
test-particle routine `Triple_vector.printflips` the claimed behaviour
holds: on a run realising five successive maxima (at times 2, 4, 6, 8, 10,
detected one step later) whose `j_z` signs are `[+, +, -, -, +]`, exactly
two flips are reported, at the 2nd→3rd and 4th→5th maxima transitions
(pairs `(6, 1/5)` and `(10, 1/5)`).  The massive-model routine
`Triple.printflips`, however, aborts with `NameError` (undefined `e` at
line 475) on any run that takes at least one step, reporting no flips at
all, so the claim fails on the massive-model code. -/
theorem C9_flip_detection :
    printflips_outs_v
      [(1, 1/10, 1), (2, 1/5, 1), (3, 1/10, 1), (4, 1/5, 1), (5, 1/10, 1),
       (6, 1/5, 1), (7, 1/10, -1), (8, 1/5, -1), (9, 1/10, -1), (10, 1/5, -1),
       (11, 1/10, 1)] 0 0 0 (np_sign 1) = [(6, 1/5), (10, 1/5)] ∧
    printflips_run_m [(1, 1/10, 1)] = none := by
  constructor
  · norm_num [printflips_outs_v, np_sign]
  · rfl

/-- Claim C10: `_evec_root` divides its third condition by
`crossnorm = sqrt(j[0]^2 + j[1]^2)`; for a coplanar configuration
(inclination input exactly 0 or 180 degrees) the constructed `jhatvec` has
`j[0] = j[1] = 0`, so this divisor is exactly `0` and the third root
condition is a division by zero — an unstated non-coplanarity
precondition of initial-state construction. -/
theorem C10_coplanar_zero_divisor (deg Omega : ℝ)
    (h : deg = 0 ∨ deg = 180) :
    evec_crossnorm (jhatvec (deg2rad deg) Omega) = 0 := by
  have hs : Real.sin (deg2rad deg) = 0 := by
    rcases h with h | h <;> subst h
    · have : deg2rad 0 = 0 := by simp [deg2rad]
      rw [this, Real.sin_zero]
    · have : deg2rad 180 = Real.pi := by rw [deg2rad]; ring
      rw [this, Real.sin_pi]
  simp [jhatvec, evec_crossnorm, hs]

/-- Witness for C10: the coplanar configuration `inc = 0`, `Omega = 0` has
a vanishing divisor. -/
theorem C10_witness :
    evec_crossnorm (jhatvec (deg2rad 0) 0) = 0 :=
  C10_coplanar_zero_divisor 0 0 (Or.inl rfl)

end Triplesec

